import Mathlib

/-!
Verification development for the Dicere speech-scoring engine
(`src/backend/main.py`, the `analyze_audio` scoring core, lines 94-263).

The engine consumes a word-level transcript (each word with integer
start/end timestamps in milliseconds), sentence-level sentiment labels and
an externally reported audio duration, and produces a report with four
category scores (pacing, fillers, pauses, sentiment), an overall score and
feedback strings.

Embedding conventions:
* Python numbers (floats and ints flowing through arithmetic) are modelled
  as `ℚ`; quantities that are Python `int`s by construction are `ℤ`/`ℕ`.
* Python `int(x)` (truncation toward zero) is `pyInt`.
* Python `round(x, 1)` (round half to even at one decimal) is `py_round1`.
* `str.lower()` followed by `.replace('.','').replace(',','')` is
  `clean_word`, realised as a per-character map-and-filter, which is
  extensionally the same operation for single-character patterns.
* fallible operations (list indexing, division) are mirrored in a second,
  `Option`-valued copy of the engine (`analyzeOpt`) used to prove that the
  engine is total: every index is in bounds and no division divides by 0.
-/

namespace Dicere

/-- A transcript word as delivered by the transcription provider:
text plus start/end timestamps in milliseconds. -/
structure Word where
  text : String
  start : Int
  «end» : Int
deriving DecidableEq, Repr

/-- A sentence-level sentiment record; the engine only reads the
`sentiment` label and compares it with the string "NEGATIVE". -/
structure SentenceSentiment where
  sentiment : String
deriving DecidableEq, Repr

/-- The completed-transcription payload the engine consumes:
words, transcript text, reported audio duration (seconds), and
sentence sentiments. -/
structure TranscriptResult where
  words : List Word
  text : String
  audio_duration : ℚ
  sentiment_analysis_results : List SentenceSentiment
deriving DecidableEq

/-- A detected long pause: index of the word preceding the gap and the
gap duration in seconds. -/
structure DetectedPause where
  after_word_index : Nat
  duration : ℚ
deriving DecidableEq, Repr

/-- Python `int(q)`: truncation toward zero. -/
def pyInt (q : ℚ) : ℤ := if 0 ≤ q then ⌊q⌋ else ⌈q⌉

/-- Round to the nearest integer, ties to even (Python `round` policy). -/
def round_half_even (q : ℚ) : ℤ :=
  if q - ⌊q⌋ < 1/2 then ⌊q⌋
  else if 1/2 < q - ⌊q⌋ then ⌊q⌋ + 1
  else if ⌊q⌋ % 2 = 0 then ⌊q⌋ else ⌊q⌋ + 1

/-- Python `round(q, 1)`. -/
def py_round1 (q : ℚ) : ℚ := (round_half_even (q * 10) : ℚ) / 10

/-! ## Word preprocessing and filler analysis (main.py lines 97-108, 167-186) -/

/-- The filler lexicon (main.py line 101). -/
def fillers : List String :=
  ["um", "umm", "uh", "huh", "uhh", "like", "hmm", "mhm", "you know",
   "actually", "basically", "right", "well"]

/-- `word['text'].lower().replace('.', '').replace(',', '')`:
lowercase every character, drop every '.' and ','. -/
def clean_word (s : String) : String :=
  ⟨(s.data.map Char.toLower).filter (fun c => !(c == '.' || c == ','))⟩

/-- Words whose cleaned text is in the filler lexicon (lines 104-108). -/
def detected_fillers (words : List Word) : List Word :=
  words.filter (fun w => fillers.contains (clean_word w.text))

/-- `filler_count`: incremented once per detected filler (line 107). -/
def filler_count (words : List Word) : Nat := (detected_fillers words).length

/-- The weighted filler penalty (lines 170-178): 5 for um/uh, 3 for like,
2 for any other lexicon entry. -/
def filler_penalty (words : List Word) : ℤ :=
  ((detected_fillers words).map (fun w =>
    if ["um", "uh"].contains (clean_word w.text) then (5 : ℤ)
    else if clean_word w.text = "like" then 3
    else 2)).sum

/-- `filler_score = max(0, 100 - filler_penalty)` (line 180). -/
def filler_score (words : List Word) : ℚ :=
  max 0 (100 - (filler_penalty words : ℚ))

/-- Filler feedback tiers (lines 181-186). -/
def filler_feedback (words : List Word) : String :=
  if filler_score words = 100 then "Excellent! No filler words detected."
  else if filler_score words > 80 then
    "A few filler words were detected, try to reduce usage of them."
  else
    "High filler usage detected (" ++ toString (detected_fillers words).length
      ++ " found)."

/-! ## Pause analysis (main.py lines 110-131, 188-205) -/

/-- `pause_threshold = 1.5` seconds (line 112). -/
def pause_threshold : ℚ := 3/2

/-- The gap between two consecutive words, milliseconds converted to
seconds (lines 121-124). -/
def gap_sec (a b : Word) : ℚ := ((b.start - a.«end» : ℤ) : ℚ) / 1000

/-- The pause-detection loop (lines 116-131): for i in range(len(words)-1),
record a pause when the gap exceeds the threshold. -/
def detected_pauses (words : List Word) : List DetectedPause :=
  (List.range (words.length - 1)).filterMap (fun i =>
    match words[i]?, words[i+1]? with
    | some a, some b =>
        if gap_sec a b > pause_threshold then some ⟨i, gap_sec a b⟩ else none
    | _, _ => none)

/-- `long_pauses`: incremented once per recorded pause (line 127). -/
def long_pauses (words : List Word) : Nat := (detected_pauses words).length

/-- The re-count over detected pauses used for scoring (lines 190-194). -/
def long_pause_penalty_count (words : List Word) : Nat :=
  ((detected_pauses words).filter
    (fun p => decide (p.duration > pause_threshold))).length

/-- `pause_score = max(0, 100 - (long_pause_penalty_count * 15))`
(line 196). -/
def pause_score (words : List Word) : ℚ :=
  max 0 (100 - (long_pause_penalty_count words : ℚ) * 15)

/-- Pause feedback tiers (lines 197-205). -/
def pause_feedback (words : List Word) : String :=
  if pause_score words = 100 then
    if detected_pauses words = [] then "Flow is continuous, great job!"
    else "A few pauses are natural, but be cognizant of them."
  else if pause_score words > 70 then
    "Awkward pauses detected, aim to talk with confidence."
  else "Minimize long silences (>1.5s) to maintain engagement."

/-! ## Pacing analysis (main.py lines 133-166) -/

/-- Lines 137-150: the effective audio duration in seconds. Starts from the
reported `audio_duration`; for a non-empty word list the buffered active
speech span (last end - first start + 1000 ms) overrides it whenever that
buffered span is positive. -/
def audio_duration_sec (words : List Word) (audio_duration : ℚ) : ℚ :=
  match words with
  | [] => audio_duration
  | w0 :: rest =>
    let start_ms := w0.start
    let end_ms := (rest.getLastD w0).«end»
    let active_duration_ms := end_ms - start_ms
    let adjusted_duration_ms := active_duration_ms + 1000
    if adjusted_duration_ms > 0 then (adjusted_duration_ms : ℚ) / 1000
    else audio_duration

/-- Line 152: minutes, with a divide-by-zero guard falling back to 1. -/
def audio_duration_min (words : List Word) (audio_duration : ℚ) : ℚ :=
  if audio_duration_sec words audio_duration > 0 then
    audio_duration_sec words audio_duration / 60
  else 1

/-- Line 154: words per minute, guarded against a non-positive minute
count. -/
def wpm (words : List Word) (audio_duration : ℚ) : ℚ :=
  if audio_duration_min words audio_duration > 0 then
    (words.length : ℚ) / audio_duration_min words audio_duration
  else 0

/-- `min_wpm = 130` (line 155). -/
def min_wpm : ℚ := 130

/-- `max_wpm = 170` (line 156). -/
def max_wpm : ℚ := 170

/-- Lines 157-166: pacing score, 1 point per WPM unit outside the
130-170 band, floored at 0. -/
def wpm_score (words : List Word) (audio_duration : ℚ) : ℚ :=
  if wpm words audio_duration < min_wpm then
    max 0 (100 - (min_wpm - wpm words audio_duration))
  else if wpm words audio_duration > max_wpm then
    max 0 (100 - (wpm words audio_duration - max_wpm))
  else 100

/-- Pacing feedback (lines 158-166). -/
def wpm_feedback (words : List Word) (audio_duration : ℚ) : String :=
  if wpm words audio_duration < min_wpm then
    "Your pace is too slow. Aim for 130-170 WPM for the clearest speech."
  else if wpm words audio_duration > max_wpm then
    "Your pace is too fast. Slow down to 130-170 WPM for the clearest speech."
  else "Perfect pacing."

/-! ## Sentiment analysis (main.py lines 207-228) -/

/-- Lines 213-216: number of records labelled NEGATIVE. -/
def negative_count (l : List SentenceSentiment) : Nat :=
  (l.filter (fun s => s.sentiment == "NEGATIVE")).length

/-- Line 210: `total_sentences = len(sentiment_results)`. -/
def total_sentences (l : List SentenceSentiment) : Nat := l.length

/-- Line 218: the negative ratio (only meaningful when the list is
non-empty; the engine guards the division with `total_sentences > 0`). -/
def neg_ratio (l : List SentenceSentiment) : ℚ :=
  (negative_count l : ℚ) / (total_sentences l : ℚ)

/-- Lines 211-221: sentiment score, default 100; penalised only when more
than 10% of sentences are negative. -/
def sentiment_score (l : List SentenceSentiment) : ℚ :=
  if 0 < total_sentences l then
    if neg_ratio l > 1/10 then
      max 0 (100 - (pyInt (neg_ratio l * 100) : ℚ))
    else 100
  else 100

/-- Sentiment feedback tiers (lines 223-228). -/
def sentiment_feedback (l : List SentenceSentiment) : String :=
  if sentiment_score l ≥ 90 then "Tone is positive and professional."
  else if sentiment_score l > 70 then
    "Tone is mostly okay, but some negativity detected."
  else "Watch your tone - significant negative sentiment detected."

/-! ## Aggregation and the report (main.py lines 230-263) -/

/-- Line 233: `overall_score = int((wpm_score + filler_score + pause_score
+ sentiment_score) / 4)`. -/
def overall_score (words : List Word) (audio_duration : ℚ)
    (l : List SentenceSentiment) : ℤ :=
  pyInt ((wpm_score words audio_duration + filler_score words
    + pause_score words + sentiment_score l) / 4)

/-- The four category scores keyed by name (lines 243-248). -/
structure CategoryScores where
  pacing : ℚ
  fillers : ℚ
  pauses : ℚ
  sentiment : ℚ
deriving DecidableEq, Repr

/-- The four category feedback strings keyed by name (lines 249-254). -/
structure CategoryFeedback where
  pacing : String
  fillers : String
  pauses : String
  sentiment : String
deriving DecidableEq, Repr

/-- Sentiment statistics (lines 255-258). -/
structure SentimentStats where
  negative_sentences : Nat
  total_sentences : Nat
deriving DecidableEq, Repr

/-- The analysis report returned by the engine (lines 238-263). -/
structure Report where
  score : ℤ
  wpm : ℚ
  fillers_detected : Nat
  long_pauses : Nat
  category_scores : CategoryScores
  category_feedback : CategoryFeedback
  sentiment_stats : SentimentStats
  feedback : String
  transcript_text : String
  words : List Word
  detailed_pauses : List DetectedPause
deriving DecidableEq

/-- The scoring engine: from a completed transcription payload to the full
analysis report (main.py lines 94-263, the pure core of `analyze_audio`). -/
def analyze (r : TranscriptResult) : Report :=
  let ws := r.words
  let d := r.audio_duration
  let ss := r.sentiment_analysis_results
  { score := overall_score ws d ss
    wpm := py_round1 (wpm ws d)
    fillers_detected := filler_count ws
    long_pauses := long_pauses ws
    category_scores :=
      { pacing := wpm_score ws d
        fillers := filler_score ws
        pauses := pause_score ws
        sentiment := sentiment_score ss }
    category_feedback :=
      { pacing := wpm_feedback ws d
        fillers := filler_feedback ws
        pauses := pause_feedback ws
        sentiment := sentiment_feedback ss }
    sentiment_stats :=
      { negative_sentences := negative_count ss
        total_sentences := total_sentences ss }
    feedback := wpm_feedback ws d ++ " " ++ filler_feedback ws ++ " "
      ++ pause_feedback ws ++ " " ++ sentiment_feedback ss
    transcript_text := r.text
    words := ws
    detailed_pauses := detected_pauses ws }

/-! ## Checked copy of the engine

Every list index and every division of the Python code is fallible
(`IndexError` / `ZeroDivisionError`).  The definitions below mirror the
engine with `Option`-valued indexing (`l[i]?`) and checked division
(`cdiv`); proving them equal to the total definitions above shows the
engine never hits an out-of-bounds access or a zero denominator. -/

/-- Division that fails on a zero denominator. -/
def cdiv (a b : ℚ) : Option ℚ := if b = 0 then none else some (a / b)

/-- The pause loop over a list of indices, with checked accesses and
checked division (main.py lines 116-131). -/
def pausesLoopOpt (words : List Word) : List Nat → Option (List DetectedPause)
  | [] => some []
  | i :: is => do
    let a ← words[i]?
    let b ← words[i+1]?
    let g ← cdiv ((b.start - a.«end» : ℤ) : ℚ) 1000
    let rest ← pausesLoopOpt words is
    pure (if g > pause_threshold then ⟨i, g⟩ :: rest else rest)

/-- Checked pause detection: run the loop over `range(len(words) - 1)`. -/
def detected_pausesOpt (words : List Word) : Option (List DetectedPause) :=
  pausesLoopOpt words (List.range (words.length - 1))

/-- Checked effective duration (lines 137-150): `words[0]` and `words[-1]`
are fallible accesses, the ms-to-s conversion a fallible division. -/
def audio_duration_secOpt (words : List Word) (audio_duration : ℚ) :
    Option ℚ :=
  if 0 < words.length then do
    let w0 ← words[0]?
    let wl ← words[words.length - 1]?
    let adjusted : ℤ := wl.«end» - w0.start + 1000
    if 0 < adjusted then cdiv (adjusted : ℚ) 1000 else pure audio_duration
  else pure audio_duration

/-- Checked minutes computation (line 152). -/
def audio_duration_minOpt (words : List Word) (audio_duration : ℚ) :
    Option ℚ := do
  let s ← audio_duration_secOpt words audio_duration
  if s > 0 then cdiv s 60 else pure 1

/-- Checked words-per-minute (line 154). -/
def wpmOpt (words : List Word) (audio_duration : ℚ) : Option ℚ := do
  let m ← audio_duration_minOpt words audio_duration
  if m > 0 then cdiv (words.length : ℚ) m else pure 0

/-- Checked sentiment score (lines 211-221): the ratio is a fallible
division. -/
def sentiment_scoreOpt (l : List SentenceSentiment) : Option ℚ :=
  if 0 < total_sentences l then do
    let r ← cdiv (negative_count l : ℚ) (total_sentences l : ℚ)
    pure (if r > 1/10 then max 0 (100 - (pyInt (r * 100) : ℚ)) else 100)
  else pure 100

/-- Checked `round(wpm, 1)`: the final division by 10 is fallible. -/
def py_round1Opt (q : ℚ) : Option ℚ :=
  cdiv ((round_half_even (q * 10) : ℚ)) 10

/-- The checked engine: same computation as `analyze`, with every list
access and every division fallible. -/
def analyzeOpt (r : TranscriptResult) : Option Report := do
  let ws := r.words
  let d := r.audio_duration
  let ss := r.sentiment_analysis_results
  let pauses ← detected_pausesOpt ws
  let w ← wpmOpt ws d
  let wscore :=
    if w < min_wpm then max 0 (100 - (min_wpm - w))
    else if w > max_wpm then max 0 (100 - (w - max_wpm))
    else 100
  let wfb :=
    if w < min_wpm then
      "Your pace is too slow. Aim for 130-170 WPM for the clearest speech."
    else if w > max_wpm then
      "Your pace is too fast. Slow down to 130-170 WPM for the clearest speech."
    else "Perfect pacing."
  let pcount :=
    (pauses.filter (fun p => decide (p.duration > pause_threshold))).length
  let pscore : ℚ := max 0 (100 - (pcount : ℚ) * 15)
  let pfb :=
    if pscore = 100 then
      if pauses = [] then "Flow is continuous, great job!"
      else "A few pauses are natural, but be cognizant of them."
    else if pscore > 70 then
      "Awkward pauses detected, aim to talk with confidence."
    else "Minimize long silences (>1.5s) to maintain engagement."
  let sscore ← sentiment_scoreOpt ss
  let sfb :=
    if sscore ≥ 90 then "Tone is positive and professional."
    else if sscore > 70 then
      "Tone is mostly okay, but some negativity detected."
    else "Watch your tone - significant negative sentiment detected."
  let total ← cdiv (wscore + filler_score ws + pscore + sscore) 4
  let rwpm ← py_round1Opt w
  pure
    { score := pyInt total
      wpm := rwpm
      fillers_detected := filler_count ws
      long_pauses := pauses.length
      category_scores :=
        { pacing := wscore
          fillers := filler_score ws
          pauses := pscore
          sentiment := sscore }
      category_feedback :=
        { pacing := wfb
          fillers := filler_feedback ws
          pauses := pfb
          sentiment := sfb }
      sentiment_stats :=
        { negative_sentences := negative_count ss
          total_sentences := total_sentences ss }
      feedback := wfb ++ " " ++ filler_feedback ws ++ " " ++ pfb ++ " " ++ sfb
      transcript_text := r.text
      words := ws
      detailed_pauses := pauses }

/-! ## Shared lemmas -/

lemma pyInt_eq_floor {q : ℚ} (h : 0 ≤ q) : pyInt q = ⌊q⌋ := if_pos h

lemma filler_penalty_nonneg (words : List Word) : 0 ≤ filler_penalty words := by
  refine List.sum_nonneg ?_
  intro x hx
  simp only [List.mem_map] at hx
  obtain ⟨w, -, rfl⟩ := hx
  split_ifs <;> norm_num

lemma filler_score_nonneg (words : List Word) : 0 ≤ filler_score words :=
  le_max_left _ _

lemma filler_score_le (words : List Word) : filler_score words ≤ 100 := by
  have h : (0 : ℚ) ≤ (filler_penalty words : ℚ) := by
    exact_mod_cast filler_penalty_nonneg words
  exact max_le (by norm_num) (by linarith)

lemma mem_detected_pauses {words : List Word} {p : DetectedPause}
    (hp : p ∈ detected_pauses words) : pause_threshold < p.duration := by
  simp only [detected_pauses, List.mem_filterMap] at hp
  obtain ⟨i, -, hi⟩ := hp
  cases h1 : words[i]? with
  | none => rw [h1] at hi; simp at hi
  | some a =>
    cases h2 : words[i+1]? with
    | none => rw [h1, h2] at hi; simp at hi
    | some b =>
      rw [h1, h2] at hi
      dsimp only at hi
      by_cases hg : gap_sec a b > pause_threshold
      · rw [if_pos hg] at hi
        cases hi
        exact hg
      · rw [if_neg hg] at hi
        cases hi

lemma long_pause_penalty_count_eq (words : List Word) :
    long_pause_penalty_count words = long_pauses words := by
  rw [long_pause_penalty_count, long_pauses, List.filter_eq_self.mpr]
  intro p hp
  simpa using mem_detected_pauses hp

lemma pause_score_eq (words : List Word) :
    pause_score words = max 0 (100 - (long_pauses words : ℚ) * 15) := by
  rw [pause_score, long_pause_penalty_count_eq]

lemma pause_score_nonneg (words : List Word) : 0 ≤ pause_score words :=
  le_max_left _ _

lemma pause_score_le (words : List Word) : pause_score words ≤ 100 := by
  have h : (0 : ℚ) ≤ (long_pause_penalty_count words : ℚ) := by positivity
  exact max_le (by norm_num) (by nlinarith)

lemma wpm_score_nonneg (words : List Word) (d : ℚ) :
    0 ≤ wpm_score words d := by
  rw [wpm_score]
  split_ifs
  exacts [le_max_left _ _, le_max_left _ _, by norm_num]

lemma wpm_score_le (words : List Word) (d : ℚ) : wpm_score words d ≤ 100 := by
  rw [wpm_score]
  split_ifs with h1 h2
  · exact max_le (by norm_num) (by linarith)
  · exact max_le (by norm_num) (by linarith)
  · norm_num

lemma neg_ratio_nonneg (l : List SentenceSentiment) : 0 ≤ neg_ratio l :=
  div_nonneg (by positivity) (by positivity)

lemma sentiment_score_nonneg (l : List SentenceSentiment) :
    0 ≤ sentiment_score l := by
  rw [sentiment_score]
  split_ifs
  exacts [le_max_left _ _, by norm_num, by norm_num]

lemma sentiment_score_le (l : List SentenceSentiment) :
    sentiment_score l ≤ 100 := by
  rw [sentiment_score]
  split_ifs
  · have h0 : (0 : ℚ) ≤ neg_ratio l * 100 := by
      have := neg_ratio_nonneg l
      positivity
    have h1 : (0 : ℤ) ≤ pyInt (neg_ratio l * 100) := by
      rw [pyInt_eq_floor h0]
      exact Int.floor_nonneg.mpr h0
    have h2 : (0 : ℚ) ≤ (pyInt (neg_ratio l * 100) : ℚ) := by exact_mod_cast h1
    exact max_le (by norm_num) (by linarith)
  · norm_num
  · norm_num

/-! ## Claims -/

/-- C1: for every input (any word sequence, any sentiment sequence, any
audio duration), each of the four category scores — wpm_score,
filler_score, pause_score, sentiment_score — is at least 0 and at most
100. -/
theorem C1_category_scores_in_range (words : List Word) (d : ℚ)
    (l : List SentenceSentiment) :
    (0 ≤ wpm_score words d ∧ wpm_score words d ≤ 100)
    ∧ (0 ≤ filler_score words ∧ filler_score words ≤ 100)
    ∧ (0 ≤ pause_score words ∧ pause_score words ≤ 100)
    ∧ (0 ≤ sentiment_score l ∧ sentiment_score l ≤ 100) :=
  ⟨⟨wpm_score_nonneg words d, wpm_score_le words d⟩,
   ⟨filler_score_nonneg words, filler_score_le words⟩,
   ⟨pause_score_nonneg words, pause_score_le words⟩,
   ⟨sentiment_score_nonneg l, sentiment_score_le l⟩⟩

/-- C2: the `score` field of the report is the integer part, truncated
toward zero, of the mean of the four category scores, which coincides with
the floor since the scores are non-negative; category scores 100, 95, 85,
70 yield overall 87. -/
theorem C2_overall_is_floored_mean (r : TranscriptResult) :
    (analyze r).score =
      ⌊((analyze r).category_scores.pacing
        + (analyze r).category_scores.fillers
        + (analyze r).category_scores.pauses
        + (analyze r).category_scores.sentiment) / 4⌋
    ∧ pyInt ((100 + 95 + 85 + 70 : ℚ) / 4) = 87 := by
  constructor
  · have h1 := wpm_score_nonneg r.words r.audio_duration
    have h2 := filler_score_nonneg r.words
    have h3 := pause_score_nonneg r.words
    have h4 := sentiment_score_nonneg r.sentiment_analysis_results
    have hs : 0 ≤ (wpm_score r.words r.audio_duration + filler_score r.words
        + pause_score r.words
        + sentiment_score r.sentiment_analysis_results) / 4 := by linarith
    simp only [analyze, overall_score]
    rw [pyInt_eq_floor hs]
  · rw [pyInt_eq_floor (by norm_num)]
    norm_num

/-- C3 as stated is false: with the single word "a" spanning 0-199 ms (and
reported duration 0) the pacing score is 24030/1199, which is not an
integer. -/
theorem C3_counterexample :
    (∃ n : ℤ, wpm_score [⟨"a", 0, 199⟩] 0 = (n : ℚ)) = False := by
  have h : wpm_score [⟨"a", 0, 199⟩] 0 = 24030/1199 := by
    have hsec : audio_duration_sec [⟨"a", 0, 199⟩] 0 = 1199/1000 := by
      simp only [audio_duration_sec, List.getLastD_nil]
      norm_num
    have hmin : audio_duration_min [⟨"a", 0, 199⟩] 0 = 1199/60000 := by
      rw [audio_duration_min, hsec]
      norm_num
    have hwpm : wpm [⟨"a", 0, 199⟩] 0 = 60000/1199 := by
      rw [wpm, hmin]
      norm_num
    rw [wpm_score, hwpm, min_wpm, max_wpm]
    rw [if_pos (by norm_num)]
    rw [max_eq_right (by norm_num)]
    norm_num
  refine eq_false ?_
  rintro ⟨n, hn⟩
  rw [h] at hn
  have h2 : (24030 : ℚ) = 1199 * n := by
    field_simp at hn
    linarith
  have h3 : (24030 : ℤ) = 1199 * n := by exact_mod_cast h2
  omega

/-- C3 amended: the filler, pause and sentiment scores are always
integer-valued quantities in [0, 100]; the pacing score wpm_score always
lies in [0, 100] but need not be an integer when the computed WPM is
non-integral. -/
theorem C3_amended_integer_scores (words : List Word) (d : ℚ)
    (l : List SentenceSentiment) :
    (∃ a : ℤ, filler_score words = (a : ℚ) ∧ 0 ≤ a ∧ a ≤ 100)
    ∧ (∃ b : ℤ, pause_score words = (b : ℚ) ∧ 0 ≤ b ∧ b ≤ 100)
    ∧ (∃ c : ℤ, sentiment_score l = (c : ℚ) ∧ 0 ≤ c ∧ c ≤ 100)
    ∧ (0 ≤ wpm_score words d ∧ wpm_score words d ≤ 100) := by
  refine ⟨⟨max 0 (100 - filler_penalty words), ?_, ?_, ?_⟩,
          ⟨max 0 (100 - (long_pause_penalty_count words : ℤ) * 15),
            ?_, ?_, ?_⟩, ?_,
          wpm_score_nonneg words d, wpm_score_le words d⟩
  · rw [filler_score]
    push_cast
    ring
  · exact le_max_left _ _
  · have := filler_penalty_nonneg words
    have h100 : 100 - filler_penalty words ≤ 100 := by omega
    exact max_le (by omega) h100
  · rw [pause_score]
    push_cast
    ring
  · exact le_max_left _ _
  · have h0 : (0 : ℤ) ≤ (long_pause_penalty_count words : ℤ) := by positivity
    exact max_le (by omega) (by omega)
  · rw [sentiment_score]
    split_ifs with h1 h2
    · refine ⟨max 0 (100 - pyInt (neg_ratio l * 100)), ?_, le_max_left _ _, ?_⟩
      · push_cast
        ring
      · have h0 : (0 : ℚ) ≤ neg_ratio l * 100 := by
          have := neg_ratio_nonneg l
          positivity
        have hp : (0 : ℤ) ≤ pyInt (neg_ratio l * 100) := by
          rw [pyInt_eq_floor h0]
          exact Int.floor_nonneg.mpr h0
        exact max_le (by omega) (by omega)
    · exact ⟨100, by norm_num⟩
    · exact ⟨100, by norm_num⟩

/-- C4: a pause record {after_word_index := i, duration := gap seconds} is
produced exactly for the indices i with both words i and i+1 present whose
gap (start of word i+1 minus end of word i, over 1000) strictly exceeds
1.5 s; `long_pauses` counts the records and
`pause_score = max(0, 100 - 15 * long_pauses)`; the two-word example
{"a",0,100},{"b",2000,2100} gives one pause of 1.9 s and score 85. -/
theorem C4_pause_records (words : List Word) :
    (∀ (i : Nat) (q : ℚ),
      (⟨i, q⟩ : DetectedPause) ∈ detected_pauses words ↔
        ∃ a b, words[i]? = some a ∧ words[i+1]? = some b ∧
          q = gap_sec a b ∧ gap_sec a b > 3/2)
    ∧ long_pauses words = (detected_pauses words).length
    ∧ pause_score words = max 0 (100 - 15 * (long_pauses words : ℚ))
    ∧ detected_pauses [⟨"a", 0, 100⟩, ⟨"b", 2000, 2100⟩] = [⟨0, 19/10⟩]
    ∧ pause_score [⟨"a", 0, 100⟩, ⟨"b", 2000, 2100⟩] = 85 := by
  have hex : detected_pauses [⟨"a", 0, 100⟩, ⟨"b", 2000, 2100⟩]
      = [⟨0, 19/10⟩] := by
    have hg : gap_sec ⟨"a", 0, 100⟩ ⟨"b", 2000, 2100⟩ = 19/10 := by
      rw [gap_sec]
      norm_num
    simp only [detected_pauses, List.length_cons, List.length_nil,
      List.range_succ, List.range_zero, List.nil_append,
      List.filterMap_cons, List.filterMap_nil]
    rw [List.getElem?_cons_zero, List.getElem?_cons_succ,
      List.getElem?_cons_zero]
    dsimp only
    rw [if_pos (by rw [hg, pause_threshold]; norm_num), hg]
  refine ⟨?_, rfl, ?_, hex, ?_⟩
  · intro i q
    constructor
    · intro hp
      simp only [detected_pauses, List.mem_filterMap, List.mem_range] at hp
      obtain ⟨j, hj, hmatch⟩ := hp
      cases h1 : words[j]? with
      | none => rw [h1] at hmatch; simp at hmatch
      | some a =>
        cases h2 : words[j+1]? with
        | none => rw [h1, h2] at hmatch; simp at hmatch
        | some b =>
          rw [h1, h2] at hmatch
          dsimp only at hmatch
          by_cases hg : gap_sec a b > pause_threshold
          · rw [if_pos hg] at hmatch
            simp only [Option.some.injEq, DetectedPause.mk.injEq] at hmatch
            obtain ⟨rfl, rfl⟩ := hmatch
            exact ⟨a, b, h1, h2, rfl, hg⟩
          · rw [if_neg hg] at hmatch
            cases hmatch
    · rintro ⟨a, b, ha, hb, rfl, hg⟩
      simp only [detected_pauses, List.mem_filterMap, List.mem_range]
      have hlen : i + 1 < words.length := (List.getElem?_eq_some.mp hb).1
      refine ⟨i, by omega, ?_⟩
      rw [ha, hb]
      dsimp only
      rw [if_pos (show gap_sec a b > pause_threshold from hg)]
  · rw [pause_score_eq, mul_comm]
  · rw [pause_score_eq, long_pauses, hex]
    rw [List.length_cons, List.length_nil]
    rw [max_eq_right (by norm_num)]
    norm_num

/-- C5: a word counts as a filler exactly when its text, lowercased with
'.' and ',' removed, equals (as a whole token) one of the 13 lexicon
entries; um/uh add 5 to the penalty, like adds 3, every other lexicon
match adds 2, and `filler_score = max(0, 100 - penalty)`; the example
[{"um",0,500},{"test",600,1000}] gives one filler and score 95, and the
empty sequence gives zero fillers and score 100. -/
theorem C5_filler_detection (words : List Word) :
    detected_fillers words = words.filter (fun w =>
      (["um", "umm", "uh", "huh", "uhh", "like", "hmm", "mhm", "you know",
        "actually", "basically", "right", "well"] : List String).contains
        (clean_word w.text))
    ∧ (∀ w, w ∈ detected_fillers words ↔ w ∈ words ∧
        clean_word w.text ∈ ["um", "umm", "uh", "huh", "uhh", "like", "hmm",
          "mhm", "you know", "actually", "basically", "right", "well"])
    ∧ filler_penalty words = ((detected_fillers words).map (fun w =>
        if (["um", "uh"] : List String).contains (clean_word w.text)
        then (5 : ℤ)
        else if clean_word w.text = "like" then 3 else 2)).sum
    ∧ filler_score words = max 0 (100 - (filler_penalty words : ℚ))
    ∧ filler_count [⟨"um", 0, 500⟩, ⟨"test", 600, 1000⟩] = 1
    ∧ filler_score [⟨"um", 0, 500⟩, ⟨"test", 600, 1000⟩] = 95
    ∧ filler_count ([] : List Word) = 0
    ∧ filler_score ([] : List Word) = 100 := by
  refine ⟨rfl, ?_, rfl, rfl, by decide, ?_, by decide, ?_⟩
  · intro w
    simp [detected_fillers, fillers, List.mem_filter]
  · have hp : filler_penalty [⟨"um", 0, 500⟩, ⟨"test", 600, 1000⟩] = 5 := by
      decide
    rw [filler_score, hp]
    rw [max_eq_right (by norm_num)]
    norm_num
  · have hp : filler_penalty ([] : List Word) = 0 := rfl
    rw [filler_score, hp]
    rw [max_eq_right (by norm_num)]
    norm_num

/-- C6: an empty sentiment sequence scores 100; otherwise, with
neg_ratio = negatives / total, the score is
max(0, 100 - floor(neg_ratio * 100)) when neg_ratio > 1/10 and 100
otherwise; 10 sentences of which 3 are NEGATIVE give score 70. -/
theorem C6_sentiment_score (l : List SentenceSentiment) :
    (l = [] → sentiment_score l = 100)
    ∧ (l ≠ [] → neg_ratio l > 1/10 →
        sentiment_score l = max 0 (100 - (⌊neg_ratio l * 100⌋ : ℚ)))
    ∧ (l ≠ [] → ¬ neg_ratio l > 1/10 → sentiment_score l = 100)
    ∧ sentiment_score (List.replicate 3 ⟨"NEGATIVE"⟩
        ++ List.replicate 7 ⟨"POSITIVE"⟩) = 70 := by
  refine ⟨?_, ?_, ?_, ?_⟩
  · rintro rfl
    rfl
  · intro hne hr
    have hpos : 0 < total_sentences l := by
      rw [total_sentences]
      exact List.length_pos.mpr hne
    have h0 : (0 : ℚ) ≤ neg_ratio l * 100 := by
      have := neg_ratio_nonneg l
      positivity
    rw [sentiment_score, if_pos hpos, if_pos hr, pyInt_eq_floor h0]
  · intro hne hr
    have hpos : 0 < total_sentences l := by
      rw [total_sentences]
      exact List.length_pos.mpr hne
    rw [sentiment_score, if_pos hpos, if_neg hr]
  · have hn : negative_count (List.replicate 3 ⟨"NEGATIVE"⟩
        ++ List.replicate 7 ⟨"POSITIVE"⟩) = 3 := by decide
    have ht : total_sentences (List.replicate 3 ⟨"NEGATIVE"⟩
        ++ List.replicate 7 ⟨"POSITIVE"⟩) = 10 := by decide
    have hr : neg_ratio (List.replicate 3 ⟨"NEGATIVE"⟩
        ++ List.replicate 7 ⟨"POSITIVE"⟩) = 3/10 := by
      rw [neg_ratio, hn, ht]
      norm_num
    rw [sentiment_score, if_pos (by rw [ht]; norm_num),
      if_pos (by rw [hr]; norm_num), hr,
      pyInt_eq_floor (by norm_num)]
    rw [show ((3:ℚ)/10 * 100) = 30 by norm_num]
    rw [show ⌊(30:ℚ)⌋ = 30 by norm_num]
    rw [max_eq_right (by norm_num)]
    norm_num

/-- C7: for a non-empty word sequence, the WPM is the word count divided
by (effective duration in seconds / 60), where the effective duration is
((end of last word - start of first word) + 1000) / 1000 whenever that
buffered span is positive and the reported audio duration otherwise, and
the denominator falls back to 1 minute when the effective duration is
non-positive. -/
theorem C7_wpm_formula (words : List Word) (d : ℚ) (h : words ≠ []) :
    audio_duration_sec words d =
      (if 0 < (words.getLast h).«end» - (words.head h).start + 1000
       then (((words.getLast h).«end» - (words.head h).start + 1000 : ℤ) : ℚ)
         / 1000
       else d)
    ∧ wpm words d =
      (words.length : ℚ) /
        (if 0 < audio_duration_sec words d
         then audio_duration_sec words d / 60
         else 1) := by
  constructor
  · match words with
    | w0 :: rest =>
      rw [List.getLast_eq_getLastD, List.head_cons]
      rfl
  · have hmin_pos : 0 < audio_duration_min words d := by
      rw [audio_duration_min]
      split_ifs with hs
      · positivity
      · norm_num
    rw [wpm, if_pos hmin_pos, audio_duration_min]

/-- C7 witness: evaluated at the single word "a" spanning 0-199 ms with
reported duration 0. -/
theorem C7_wpm_formula_witness :
    wpm [⟨"a", 0, 199⟩] 0 = 60000/1199 := by
  have h := C7_wpm_formula [⟨"a", 0, 199⟩] 0 (by simp)
  rw [h.2, h.1]
  norm_num

/-- C8: whenever pause_score is 100 the detected-pause list is empty, so
the "A few pauses are natural" branch is dead and the feedback at score
100 is always the continuous-flow message. -/
theorem C8_natural_pause_branch_dead (words : List Word)
    (h : pause_score words = 100) :
    detected_pauses words = []
    ∧ pause_feedback words = "Flow is continuous, great job!" := by
  have hcount : long_pause_penalty_count words = 0 := by
    by_contra hc
    have h1 : 1 ≤ (long_pause_penalty_count words : ℚ) := by
      exact_mod_cast Nat.one_le_iff_ne_zero.mpr hc
    have h2 : pause_score words ≤ 85 := by
      rw [pause_score]
      refine max_le (by norm_num) (by linarith)
    rw [h] at h2
    norm_num at h2
  have hempty : detected_pauses words = [] := by
    have hlen : long_pauses words = 0 := by
      rw [← long_pause_penalty_count_eq]
      exact hcount
    exact List.length_eq_zero.mp hlen
  refine ⟨hempty, ?_⟩
  rw [pause_feedback, if_pos h, if_pos hempty]

/-- C8 witness: the empty word sequence has pause score 100, no detected
pauses and the continuous-flow feedback. -/
theorem C8_natural_pause_branch_dead_witness :
    detected_pauses ([] : List Word) = []
    ∧ pause_feedback ([] : List Word) = "Flow is continuous, great job!" := by
  refine C8_natural_pause_branch_dead [] ?_
  rw [pause_score]
  rw [show long_pause_penalty_count ([] : List Word) = 0 from rfl]
  rw [max_eq_right (by norm_num)]
  norm_num

/-! ## Lemmas about the checked engine -/

lemma cdiv_eq_some {b : ℚ} (a : ℚ) (h : b ≠ 0) : cdiv a b = some (a / b) :=
  if_neg h

lemma getElem?_cons_last {α : Type _} (w0 : α) (rest : List α) :
    (w0 :: rest)[(w0 :: rest).length - 1]? = some (rest.getLastD w0) := by
  induction rest generalizing w0 with
  | nil => rfl
  | cons r rs ih =>
    rw [List.getLastD_cons]
    have hlen : (w0 :: r :: rs).length - 1 = ((r :: rs).length - 1) + 1 := by
      simp [List.length_cons]
    rw [hlen, List.getElem?_cons_succ]
    exact ih r

lemma pausesLoopOpt_eq (words : List Word) (is : List Nat)
    (hall : ∀ i ∈ is, i + 1 < words.length) :
    pausesLoopOpt words is = some (is.filterMap (fun i =>
      match words[i]?, words[i+1]? with
      | some a, some b =>
          if gap_sec a b > pause_threshold then some ⟨i, gap_sec a b⟩
          else none
      | _, _ => none)) := by
  induction is with
  | nil => rfl
  | cons i is ih =>
    have hi1 : i + 1 < words.length := hall i (by simp)
    have hi0 : i < words.length := by omega
    have ha : words[i]? = some words[i] := List.getElem?_eq_getElem hi0
    have hb : words[i+1]? = some (words[i+1]) := List.getElem?_eq_getElem hi1
    have hrest := ih (fun j hj => hall j (List.mem_cons_of_mem _ hj))
    rw [pausesLoopOpt, List.filterMap_cons, ha, hb]
    simp only [Option.bind_eq_bind, Option.some_bind]
    rw [cdiv_eq_some _ (by norm_num : (1000:ℚ) ≠ 0)]
    simp only [Option.some_bind]
    rw [hrest]
    simp only [Option.some_bind]
    by_cases hg : gap_sec words[i] (words[i+1]) > pause_threshold
    · rw [if_pos hg]
      dsimp only
      rw [if_pos (show ((((words[i+1]).start
        - words[i].«end» : ℤ) : ℚ) / 1000 > pause_threshold) from hg)]
      rfl
    · rw [if_neg hg]
      dsimp only
      rw [if_neg (show ¬ ((((words[i+1]).start
        - words[i].«end» : ℤ) : ℚ) / 1000 > pause_threshold) from hg)]
      rfl

lemma detected_pausesOpt_eq (words : List Word) :
    detected_pausesOpt words = some (detected_pauses words) := by
  rw [detected_pausesOpt, detected_pauses]
  exact pausesLoopOpt_eq words _ (fun i hi => by
    rw [List.mem_range] at hi
    omega)

lemma audio_duration_secOpt_eq (words : List Word) (d : ℚ) :
    audio_duration_secOpt words d = some (audio_duration_sec words d) := by
  match words with
  | [] => rfl
  | w0 :: rest =>
    rw [audio_duration_secOpt, if_pos (by simp)]
    rw [List.getElem?_cons_zero, getElem?_cons_last]
    simp only [Option.bind_eq_bind, Option.some_bind]
    rw [audio_duration_sec]
    split_ifs with hadj
    · exact cdiv_eq_some _ (by norm_num)
    · rfl

lemma audio_duration_minOpt_eq (words : List Word) (d : ℚ) :
    audio_duration_minOpt words d = some (audio_duration_min words d) := by
  rw [audio_duration_minOpt, audio_duration_secOpt_eq]
  simp only [Option.bind_eq_bind, Option.some_bind]
  rw [audio_duration_min]
  split_ifs with h
  · exact cdiv_eq_some _ (by norm_num)
  · rfl

lemma wpmOpt_eq (words : List Word) (d : ℚ) :
    wpmOpt words d = some (wpm words d) := by
  rw [wpmOpt, audio_duration_minOpt_eq]
  simp only [Option.bind_eq_bind, Option.some_bind]
  rw [wpm]
  split_ifs with h
  · exact cdiv_eq_some _ (ne_of_gt h)
  · rfl

lemma sentiment_scoreOpt_eq (l : List SentenceSentiment) :
    sentiment_scoreOpt l = some (sentiment_score l) := by
  by_cases h : 0 < total_sentences l
  · have hT : ((total_sentences l : ℚ)) ≠ 0 := by
      exact_mod_cast Nat.pos_iff_ne_zero.mp h
    rw [sentiment_scoreOpt, sentiment_score, if_pos h, if_pos h,
      cdiv_eq_some _ hT]
    simp only [Option.bind_eq_bind, Option.some_bind]
    rfl
  · rw [sentiment_scoreOpt, sentiment_score, if_neg h, if_neg h]
    rfl

lemma cdiv_four (a : ℚ) : cdiv a 4 = some (a / 4) :=
  cdiv_eq_some a (by norm_num)

lemma cdiv_ten (a : ℚ) : cdiv a 10 = some (a / 10) :=
  cdiv_eq_some a (by norm_num)

/-- C9: the scoring engine is total over the documented input shape: the
checked copy of the engine, in which every list access and every division
can fail, always succeeds and returns exactly the report of the total
engine — every access is in bounds and no division divides by zero. -/
theorem C9_engine_never_fails (r : TranscriptResult) :
    analyzeOpt r = some (analyze r) := by
  simp only [analyzeOpt, detected_pausesOpt_eq, wpmOpt_eq,
    sentiment_scoreOpt_eq, py_round1Opt, cdiv_four, cdiv_ten,
    Option.bind_eq_bind, Option.some_bind]
  rfl

/-- C10: for a non-empty word sequence whose active span (end of last word
minus start of first word) exceeds -1000 ms — in particular every
chronologically ordered sequence — the whole report is independent of the
reported audio duration: the buffered active-speech duration always
overrides it. -/
theorem C10_report_ignores_audio_duration (ws : List Word) (t : String)
    (ss : List SentenceSentiment) (d₁ d₂ : ℚ) (h : ws ≠ [])
    (hgap : -1000 < (ws.getLast h).«end» - (ws.head h).start) :
    analyze ⟨ws, t, d₁, ss⟩ = analyze ⟨ws, t, d₂, ss⟩ := by
  have hsec : audio_duration_sec ws d₁ = audio_duration_sec ws d₂ := by
    match ws with
    | w0 :: rest =>
      rw [List.getLast_eq_getLastD, List.head_cons] at hgap
      rw [audio_duration_sec, audio_duration_sec]
      have hadj : (rest.getLastD w0).«end» - w0.start + 1000 > 0 := by omega
      rw [if_pos hadj, if_pos hadj]
  have hmin : audio_duration_min ws d₁ = audio_duration_min ws d₂ := by
    rw [audio_duration_min, audio_duration_min, hsec]
  have hwpm : wpm ws d₁ = wpm ws d₂ := by
    rw [wpm, wpm, hmin]
  have hws : wpm_score ws d₁ = wpm_score ws d₂ := by
    rw [wpm_score, wpm_score, hwpm]
  have hwf : wpm_feedback ws d₁ = wpm_feedback ws d₂ := by
    rw [wpm_feedback, wpm_feedback, hwpm]
  have hov : overall_score ws d₁ ss = overall_score ws d₂ ss := by
    rw [overall_score, overall_score, hws]
  simp only [analyze]
  rw [hwpm, hws, hwf, hov]

/-- C10 witness: the single word "a" on 0-199 ms, with reported durations
5 and 123 seconds, yields the identical report. -/
theorem C10_report_ignores_audio_duration_witness :
    analyze ⟨[⟨"a", 0, 199⟩], "a", 5, []⟩
      = analyze ⟨[⟨"a", 0, 199⟩], "a", 123, []⟩ :=
  C10_report_ignores_audio_duration [⟨"a", 0, 199⟩] "a" [] 5 123
    (by simp) (by norm_num [List.getLast, List.head])

end Dicere
